import Mathlib

/- Shallow embedding of the DevToolsPlugin module of rxjs-spy (the devtools
   plugin source): the notification payload builder (toNotification_), the
   batching and wire-protocol layer (batchMessage_, batchDeckStats_,
   batchNotification_, the batch timer callback), the plugin-host request
   dispatch (the switch inside the responses_ pipeline) and teardown.
   External collaborators (identify, inferPath, inferType, read,
   getStackTrace, getGraphRef, circular-json stringify, spy_.tick, Date.now,
   the Connection transport) are modelled by carrying their outputs on the
   inputs or by explicit state fields.  JS values that may be undefined are
   modelled as Option; machine-level timers are modelled by an explicit
   timer-armed flag plus a timer-fire event. -/

/-- Result of the external cycle-safe serializer: circular-json stringify
produces a string, wrapped by toValue into a json field. -/
structure SerializedValue where
  json : String
deriving DecidableEq

/-- Mirrors toValue: wraps a defined value into its cycle-safe serialized
form.  A defined JS value is modelled by the string the external serializer
would produce for it. -/
def toValue (value : String) : SerializedValue :=
  { json := value }

/-- Mirrors orNull: a JS undefined becomes null; both are modelled as none,
so the function is the identity written with the source conditional shape. -/
def orNull {α : Type} (value : Option α) : Option α :=
  match value with
  | none => none
  | some v => some v

/-- Wire Graph payload; the ids are the results of the external identify. -/
structure GraphPayload where
  flats : List Nat
  flatsFlushed : Nat
  rootSink : Option Nat
  sink : Option Nat
  sources : List Nat
  sourcesFlushed : Nat
deriving DecidableEq

/-- The subscription reference handed to the lifecycle methods, carrying the
outputs of the external collaborators precomputed on it: identify of the
observable, subscriber and subscription, inferPath, read (the tag),
inferType, getGraphRef composed with toGraph, and getStackTrace. -/
structure SubscriptionRef where
  observableId : Nat
  observablePath : String
  observableTag : Option String
  observableType : String
  subscriberId : Nat
  subscriptionId : Nat
  graph : Option GraphPayload
  stackTrace : Option String
deriving DecidableEq

/-- The notification kinds of the lifecycle pipeline. -/
inductive Notification
  | subscribe
  | unsubscribe
  | next
  | error
  | complete
deriving DecidableEq

/-- The before/after marker of a NotificationRef.  The source field name is a
Lean keyword, so the field is called phase here. -/
inductive Phase
  | before
  | after
deriving DecidableEq

/-- The string form of a notification kind used in the payload type field. -/
def notificationString : Notification → String
  | .subscribe => "subscribe"
  | .unsubscribe => "unsubscribe"
  | .next => "next"
  | .error => "error"
  | .complete => "complete"

/-- The string form of the before/after marker. -/
def phaseString : Phase → String
  | .before => "before"
  | .after => "after"

/-- Mirrors the NotificationRef interface: error and value are JS optionals,
ref is the subscription reference. -/
structure NotificationRef where
  error : Option String
  notification : Notification
  phase : Phase
  ref : SubscriptionRef
  value : Option String
deriving DecidableEq

/-- External quantities sampled while a payload is built: spy_.tick, the
Date.now timestamp and the fresh id returned by identify on a new object. -/
structure Externals where
  tick : Nat
  timestamp : Nat
  freshId : Nat
deriving DecidableEq

/-- A lifecycle notification together with the externals sampled for it. -/
structure NotificationInput where
  nref : NotificationRef
  ext : Externals
deriving DecidableEq

structure ObservableDescriptor where
  id : Nat
  path : String
  tag : Option String
  type : String
deriving DecidableEq

structure SubscriberDescriptor where
  id : Nat
deriving DecidableEq

structure SubscriptionDescriptor where
  error : Option String
  graph : Option GraphPayload
  id : Nat
  stackTrace : Option String
deriving DecidableEq

/-- The wire Notification payload built by toNotification_. -/
structure NotificationPayload where
  id : Nat
  observable : ObservableDescriptor
  subscriber : SubscriberDescriptor
  subscription : SubscriptionDescriptor
  tick : Nat
  timestamp : Nat
  type : String
  value : Option SerializedValue
deriving DecidableEq

/-- Mirrors toNotification_: builds the wire payload from a notification
reference; the type field is the phase string, a hyphen and the notification
string; value is absent exactly when the JS value member is undefined. -/
def toNotification_ (inp : NotificationInput) : NotificationPayload :=
  { id := inp.ext.freshId
  , observable :=
      { id := inp.nref.ref.observableId
      , path := inp.nref.ref.observablePath
      , tag := orNull inp.nref.ref.observableTag
      , type := inp.nref.ref.observableType }
  , subscriber := { id := inp.nref.ref.subscriberId }
  , subscription :=
      { error := inp.nref.error
      , graph := orNull inp.nref.ref.graph
      , id := inp.nref.ref.subscriptionId
      , stackTrace := orNull inp.nref.ref.stackTrace }
  , tick := inp.ext.tick
  , timestamp := inp.ext.timestamp
  , type := phaseString inp.nref.phase ++ "-" ++ notificationString inp.nref.notification
  , value :=
      match inp.nref.value with
      | none => none
      | some v => some (toValue v) }

/-- Modelled from the spec: the run states of the pause-controller Deck; the
pause plugin module itself is outside the excerpted source. -/
inductive DeckState
  | running
  | paused
deriving DecidableEq

/-- Modelled from the spec: the Deck of a pause plugin: its run state and the
buffer of withheld notifications, represented by opaque ids.  Delivery of
released notifications happens downstream and is outside the modelled
state. -/
structure Deck where
  runState : DeckState
  buffer : List Nat
deriving DecidableEq

/-- Modelled from the spec: the initial Deck state is running with nothing
buffered. -/
def Deck.initial : Deck :=
  { runState := .running, buffer := [] }

/-- Modelled from the spec: clear discards the whole buffer. -/
def Deck.clear (d : Deck) : Deck :=
  { d with buffer := [] }

/-- Modelled from the spec: pause moves to the paused state. -/
def Deck.pause (d : Deck) : Deck :=
  { d with runState := .paused }

/-- Modelled from the spec: resume returns to running and flushes the buffer
downstream. -/
def Deck.resume (d : Deck) : Deck :=
  { d with runState := .running, buffer := [] }

/-- Modelled from the spec: skip discards the next buffered notification. -/
def Deck.skip (d : Deck) : Deck :=
  { d with buffer := d.buffer.tail }

/-- Modelled from the spec: step releases the next buffered notification. -/
def Deck.step (d : Deck) : Deck :=
  { d with buffer := d.buffer.tail }

/-- Modelled from the spec: the statistics emitted on a Deck stats stream
(counts of buffered, resumed and skipped notifications). -/
structure DeckStats where
  buffered : Nat
  resumed : Nat
  skipped : Nat
deriving DecidableEq

/-- The wire DeckStats payload: the stats joined with the deck id. -/
structure DeckStatsPayload where
  id : String
  buffered : Nat
  resumed : Nat
  skipped : Nat
deriving DecidableEq

/-- Mirrors toStats: spreads the stats behind the id. -/
def toStats (id : String) (stats : DeckStats) : DeckStatsPayload :=
  { id := id
  , buffered := stats.buffered
  , resumed := stats.resumed
  , skipped := stats.skipped }

/-- The broadcast messages placed on the batch queue, discriminated in the
source by the broadcastType string: notification, deck-stats or
snapshot-hint. -/
inductive Message
  | notification (payload : NotificationPayload)
  | deckStats (stats : DeckStatsPayload)
  | snapshotHint
deriving DecidableEq

/-- True exactly when the broadcastType of the message is notification. -/
def Message.isNotification : Message → Bool
  | .notification _ => true
  | _ => false

/-- True exactly when the message is a snapshot-hint broadcast. -/
def Message.isSnapshotHint : Message → Bool
  | .snapshotHint => true
  | _ => false

/-- The keep-predicate of the deck-stats dedup filter: a message survives
when it is not a deck-stats broadcast or carries a different deck id. -/
def keepForDeckStats (id : String) : Message → Bool
  | .deckStats st => st.id != id
  | _ => true

/-- True exactly when the message is a deck-stats broadcast for this id. -/
def Message.isDeckStatsFor (id : String) : Message → Bool
  | .deckStats st => st.id == id
  | _ => false

/-- Inbound request, a post carrying requestType, postId and spyId; the
pluginId and command members are JS optionals modelled as plain strings
since absent members only ever flow into string comparisons and map keys. -/
structure Request where
  requestType : String
  postId : String
  spyId : String
  pluginId : String
  command : String
deriving DecidableEq

/-- Snapshot payload returned by the snapshot request case; its content is
built by toSnapshot from the external SnapshotPlugin, which lies outside the
excerpted source, so only its presence matters here. -/
structure SnapshotPayload where
  tick : Nat
deriving DecidableEq

/-- The response message: the request echo plus the optional error,
pluginId and snapshot members set by the dispatch switch. -/
structure Response where
  request : Request
  error : Option String := none
  pluginId : Option String := none
  snapshot : Option SnapshotPayload := none
deriving DecidableEq

/-- The plugin instances the host can record: a log plugin or a pause plugin
owning a Deck. -/
inductive Plugin
  | log
  | pause (deck : Deck)
deriving DecidableEq

/-- Mirrors PluginRecord; the teardown procedure returned by spy_.plug is an
external effect, recorded by the ghost teardownsRun_ trace of the state. -/
structure PluginRecord where
  plugin : Plugin
  pluginId : String
  spyId : String
deriving DecidableEq

/-- Lookup in the JS Map modelled as an association list. -/
def mapGet {α : Type} : List (String × α) → String → Option α
  | [], _ => none
  | (k, v) :: rest, key => if k = key then some v else mapGet rest key

/-- Map.set: replaces the entry for an existing key, appends otherwise. -/
def mapSet {α : Type} : List (String × α) → String → α → List (String × α)
  | [], key, v => [(key, v)]
  | (k, w) :: rest, key, v =>
      if k = key then (key, v) :: rest else (k, w) :: mapSet rest key v

/-- Map.delete: removes the entry for the key. -/
def mapDelete {α : Type} : List (String × α) → String → List (String × α)
  | [], _ => []
  | (k, v) :: rest, key =>
      if k = key then mapDelete rest key else (k, v) :: mapDelete rest key

/-- The mutable state of a DevToolsPlugin session.  batchTimerArmed_ models
batchTimeoutId_ being defined, connection_ models the connection being
present, snapshotPlugin_ models the result of spy_.find on SnapshotPlugin
(together with the payload toSnapshot would build), and teardownsRun_ is a
ghost trace of the recorded teardown procedures that have been invoked. -/
structure DevToolsState where
  batchQueue_ : List Message
  batchTimerArmed_ : Bool
  connection_ : Bool
  plugins_ : List (String × PluginRecord)
  snapshotHinted_ : Bool
  snapshotPlugin_ : Option SnapshotPayload
  teardownsRun_ : List String
deriving DecidableEq

/-- Mirrors batchMessage_: with a batch window open the message is pushed on
the queue; otherwise the queue becomes the single message and the batch
timer is armed for BATCH_MILLISECONDS. -/
def batchMessage_ (message : Message) (s : DevToolsState) : DevToolsState :=
  if s.batchTimerArmed_ then
    { s with batchQueue_ := s.batchQueue_ ++ [message] }
  else
    { s with batchQueue_ := [message], batchTimerArmed_ := true }

/-- Mirrors batchDeckStats_: still-queued deck-stats messages for the same
deck id are filtered out before the new stats broadcast is batched. -/
def batchDeckStats_ (stats : DeckStatsPayload) (s : DevToolsState) : DevToolsState :=
  batchMessage_ (Message.deckStats stats)
    { s with batchQueue_ := s.batchQueue_.filter (fun m => keepForDeckStats stats.id m) }

/-- Mirrors the reduce in batchNotification_ counting the queued messages
whose broadcastType is notification. -/
def countNotifications (queue : List Message) : Nat :=
  queue.foldl (fun c m => if m.isNotification then c + 1 else c) 0

/-- Mirrors batchNotification_, with the constant BATCH_NOTIFICATIONS (whose
definition lives in the constants module outside the excerpt) passed as the
parameter B: without a connection nothing happens; while snapshotHinted_ the
call returns early; when the queued notification count exceeds B the queued
notification messages are dropped, a single snapshot-hint broadcast is
batched and the flag is set; otherwise the built payload is batched. -/
def batchNotification_ (B : Nat) (inp : NotificationInput) (s : DevToolsState) : DevToolsState :=
  if s.connection_ then
    if s.snapshotHinted_ then s
    else
      if countNotifications s.batchQueue_ > B then
        { batchMessage_ Message.snapshotHint
            { s with batchQueue_ := s.batchQueue_.filter (fun m => !(m.isNotification)) }
          with snapshotHinted_ := true }
      else
        batchMessage_ (Message.notification (toNotification_ inp)) s
  else s

/-- Mirrors afterSubscribe. -/
def afterSubscribe (B : Nat) (ref : SubscriptionRef) (ext : Externals) (s : DevToolsState) : DevToolsState :=
  batchNotification_ B
    { nref := { error := none, notification := .subscribe, phase := .after, ref := ref, value := none }
    , ext := ext } s

/-- Mirrors afterUnsubscribe. -/
def afterUnsubscribe (B : Nat) (ref : SubscriptionRef) (ext : Externals) (s : DevToolsState) : DevToolsState :=
  batchNotification_ B
    { nref := { error := none, notification := .unsubscribe, phase := .after, ref := ref, value := none }
    , ext := ext } s

/-- Mirrors beforeComplete. -/
def beforeComplete (B : Nat) (ref : SubscriptionRef) (ext : Externals) (s : DevToolsState) : DevToolsState :=
  batchNotification_ B
    { nref := { error := none, notification := .complete, phase := .before, ref := ref, value := none }
    , ext := ext } s

/-- Mirrors beforeError: the error travels in the error member of the
notification reference; the value member is left undefined. -/
def beforeError (B : Nat) (ref : SubscriptionRef) (error : Option String) (ext : Externals) (s : DevToolsState) : DevToolsState :=
  batchNotification_ B
    { nref := { error := error, notification := .error, phase := .before, ref := ref, value := none }
    , ext := ext } s

/-- Mirrors beforeNext: the emitted value travels in the value member. -/
def beforeNext (B : Nat) (ref : SubscriptionRef) (value : Option String) (ext : Externals) (s : DevToolsState) : DevToolsState :=
  batchNotification_ B
    { nref := { error := none, notification := .next, phase := .before, ref := ref, value := value }
    , ext := ext } s

/-- Mirrors beforeSubscribe. -/
def beforeSubscribe (B : Nat) (ref : SubscriptionRef) (ext : Externals) (s : DevToolsState) : DevToolsState :=
  batchNotification_ B
    { nref := { error := none, notification := .subscribe, phase := .before, ref := ref, value := none }
    , ext := ext } s

/-- Mirrors beforeUnsubscribe. -/
def beforeUnsubscribe (B : Nat) (ref : SubscriptionRef) (ext : Externals) (s : DevToolsState) : DevToolsState :=
  batchNotification_ B
    { nref := { error := none, notification := .unsubscribe, phase := .before, ref := ref, value := none }
    , ext := ext } s

/-- Mirrors teardown: an armed batch timer is cleared and, when a connection
is present, it is disconnected and forgotten (the responses subscription is
also unsubscribed, modelled by requests being ignored without a
connection). -/
def teardown (s : DevToolsState) : DevToolsState :=
  let s1 :=
    if s.batchTimerArmed_ then { s with batchTimerArmed_ := false } else s
  if s1.connection_ then { s1 with connection_ := false } else s1

/-- Mirrors recordPlugin_: spy_.plug attaches the plugin externally and its
returned teardown procedure is kept on the record (here: tracked by the
ghost trace when invoked); the record is stored under the plugin id. -/
def recordPlugin_ (spyId : String) (pluginId : String) (plugin : Plugin) (s : DevToolsState) : DevToolsState :=
  { s with plugins_ := mapSet s.plugins_ pluginId { plugin := plugin, pluginId := pluginId, spyId := spyId } }

/-- Mirrors teardownPlugin_: with a record present its teardown procedure is
invoked (appended to the ghost trace) and the record is deleted; otherwise
nothing happens. -/
def teardownPlugin_ (pluginId : String) (s : DevToolsState) : DevToolsState :=
  match mapGet s.plugins_ pluginId with
  | none => s
  | some _ =>
      { s with plugins_ := mapDelete s.plugins_ pluginId,
               teardownsRun_ := s.teardownsRun_ ++ [pluginId] }

/-- Dispatch of one of the five deck commands: in the source the looked-up
record is cast to a pause plugin and deck[command]() is invoked, mutating
the deck held by that record; on a record whose plugin has no deck the
member is undefined and the call throws, modelled as none. -/
def dispatchDeckCommand (f : Deck → Deck) (pluginId : String) (record : PluginRecord) (s : DevToolsState) (response : Response) : Option (DevToolsState × Response) :=
  match record.plugin with
  | .pause deck =>
      some
        ( { s with plugins_ := mapSet s.plugins_ pluginId { record with plugin := .pause (f deck) } }
        , response )
  | .log => none

/-- Mirrors the request switch inside the responses_ pipeline of the
DevToolsPlugin constructor: builds the response for one inbound request and
performs its state effects.  The JS switch on strings is written as an
if-chain; none models the throw that a deck command on a deck-less plugin
record would raise. -/
def handleRequest (r : Request) (s : DevToolsState) : Option (DevToolsState × Response) :=
  let response : Response := { request := r }
  if r.requestType = "log" then
    some (recordPlugin_ r.spyId r.postId .log s, { response with pluginId := some r.postId })
  else if r.requestType = "log-teardown" then
    some (teardownPlugin_ r.pluginId s, response)
  else if r.requestType = "pause" then
    some (recordPlugin_ r.spyId r.postId (.pause Deck.initial) s, { response with pluginId := some r.postId })
  else if r.requestType = "pause-command" then
    match mapGet s.plugins_ r.pluginId with
    | none => some (s, response)
    | some record =>
        if r.command = "clear" then dispatchDeckCommand Deck.clear r.pluginId record s response
        else if r.command = "pause" then dispatchDeckCommand Deck.pause r.pluginId record s response
        else if r.command = "resume" then dispatchDeckCommand Deck.resume r.pluginId record s response
        else if r.command = "skip" then dispatchDeckCommand Deck.skip r.pluginId record s response
        else if r.command = "step" then dispatchDeckCommand Deck.step r.pluginId record s response
        else if r.command = "inspect" then
          some (s, { response with error := some "Not implemented." })
        else
          some (s, { response with error := some "Unexpected command." })
  else if r.requestType = "pause-teardown" then
    some (teardownPlugin_ r.pluginId s, response)
  else if r.requestType = "snapshot" then
    let s1 := { s with snapshotHinted_ := false }
    match s.snapshotPlugin_ with
    | some snap => some (s1, { response with snapshot := some snap })
    | none => some (s1, { response with error := some "Cannot find snapshot plugin." })
  else
    some (s, { response with error := some "Unexpected request." })

/-- A message posted on the connection: the batch of the timer callback or a
response posted by the responses_ subscription. -/
inductive Post
  | batch (messages : List Message)
  | response (r : Response)
deriving DecidableEq

/-- The events a session reacts to: the seven lifecycle methods, an emission
of a pause-plugin stats stream, the batch timer firing, teardown and an
inbound request. -/
inductive Event
  | afterSubscribeEv (ref : SubscriptionRef) (ext : Externals)
  | afterUnsubscribeEv (ref : SubscriptionRef) (ext : Externals)
  | beforeCompleteEv (ref : SubscriptionRef) (ext : Externals)
  | beforeErrorEv (ref : SubscriptionRef) (error : Option String) (ext : Externals)
  | beforeNextEv (ref : SubscriptionRef) (value : Option String) (ext : Externals)
  | beforeSubscribeEv (ref : SubscriptionRef) (ext : Externals)
  | beforeUnsubscribeEv (ref : SubscriptionRef) (ext : Externals)
  | deckStatsEv (spyId : String) (stats : DeckStats)
  | timerFire
  | teardownEv
  | request (r : Request)
deriving DecidableEq

/-- True exactly on an inbound snapshot request. -/
def isSnapshotRequest : Event → Bool
  | .request r => r.requestType == "snapshot"
  | _ => false

/-- One step of the session: the state effect and the posts put on the
connection by the event.  The timer callback posts the queued messages as
one batch and closes the window only when the connection is still present;
requests are dispatched, and their responses posted, only while the
connection is present (the responses subscription is torn down with it);
none models the throw of a deck command on a deck-less plugin record. -/
def step (B : Nat) (e : Event) (s : DevToolsState) : Option (DevToolsState × List Post) :=
  match e with
  | .afterSubscribeEv ref ext => some (afterSubscribe B ref ext s, [])
  | .afterUnsubscribeEv ref ext => some (afterUnsubscribe B ref ext s, [])
  | .beforeCompleteEv ref ext => some (beforeComplete B ref ext s, [])
  | .beforeErrorEv ref err ext => some (beforeError B ref err ext s, [])
  | .beforeNextEv ref v ext => some (beforeNext B ref v ext s, [])
  | .beforeSubscribeEv ref ext => some (beforeSubscribe B ref ext s, [])
  | .beforeUnsubscribeEv ref ext => some (beforeUnsubscribe B ref ext s, [])
  | .deckStatsEv spyId stats => some (batchDeckStats_ (toStats spyId stats) s, [])
  | .timerFire =>
      if s.batchTimerArmed_ then
        if s.connection_ then
          some ({ s with batchTimerArmed_ := false, batchQueue_ := [] }, [Post.batch s.batchQueue_])
        else
          some (s, [])
      else
        some (s, [])
  | .teardownEv => some (teardown s, [])
  | .request r =>
      if s.connection_ then
        match handleRequest r s with
        | none => none
        | some (s1, response) => some (s1, [Post.response response])
      else
        some (s, [])

/-- Runs a sequence of events, concatenating the posts in order. -/
def run (B : Nat) : List Event → DevToolsState → Option (DevToolsState × List Post)
  | [], s => some (s, [])
  | e :: evs, s =>
      match step B e s with
      | none => none
      | some (s1, ps) =>
          match run B evs s1 with
          | none => none
          | some (s2, ps2) => some (s2, ps ++ ps2)

/-- Iterates batchNotification_ over a list of lifecycle inputs. -/
def foldNotify (B : Nat) (inputs : List NotificationInput) (s : DevToolsState) : DevToolsState :=
  inputs.foldl (fun st inp => batchNotification_ B inp st) s

/-- Counts the snapshot-hint broadcasts in a queue. -/
def countHints (queue : List Message) : Nat :=
  queue.countP (fun m => m.isSnapshotHint)

/-- Snapshot-hint broadcasts carried by one post. -/
def postHint : Post → Nat
  | .batch ms => countHints ms
  | .response _ => 0

/-- Snapshot-hint broadcasts carried by a sequence of posts. -/
def postsHints (ps : List Post) : Nat :=
  (ps.map postHint).sum

/- Helper lemmas about the embedded operations. -/

lemma batchMessage_armed (m : Message) (s : DevToolsState) (h : s.batchTimerArmed_ = true) :
    batchMessage_ m s = { s with batchQueue_ := s.batchQueue_ ++ [m] } := by
  simp [batchMessage_, h]

lemma batchMessage_unarmed (m : Message) (s : DevToolsState) (h : s.batchTimerArmed_ = false) :
    batchMessage_ m s = { s with batchQueue_ := [m], batchTimerArmed_ := true } := by
  simp [batchMessage_, h]

lemma batchMessage_connection (m : Message) (s : DevToolsState) :
    (batchMessage_ m s).connection_ = s.connection_ := by
  unfold batchMessage_
  split <;> rfl

lemma batchMessage_snapshotHinted (m : Message) (s : DevToolsState) :
    (batchMessage_ m s).snapshotHinted_ = s.snapshotHinted_ := by
  unfold batchMessage_
  split <;> rfl

lemma batchMessage_armed_after (m : Message) (s : DevToolsState) :
    (batchMessage_ m s).batchTimerArmed_ = true ∨ (batchMessage_ m s).batchTimerArmed_ = s.batchTimerArmed_ := by
  unfold batchMessage_
  split <;> simp_all

lemma batchDeckStats_connection (p : DeckStatsPayload) (s : DevToolsState) :
    (batchDeckStats_ p s).connection_ = s.connection_ := by
  unfold batchDeckStats_
  rw [batchMessage_connection]

lemma batchDeckStats_snapshotHinted (p : DeckStatsPayload) (s : DevToolsState) :
    (batchDeckStats_ p s).snapshotHinted_ = s.snapshotHinted_ := by
  unfold batchDeckStats_
  rw [batchMessage_snapshotHinted]

lemma batchDeckStats_armed (p : DeckStatsPayload) (s : DevToolsState) (h : s.batchTimerArmed_ = true) :
    batchDeckStats_ p s =
      { s with batchQueue_ := s.batchQueue_.filter (fun m => keepForDeckStats p.id m) ++ [Message.deckStats p] } := by
  unfold batchDeckStats_
  rw [batchMessage_armed]
  exact h

lemma countNotifications_shift (q : List Message) (c : Nat) :
    q.foldl (fun a m => if m.isNotification then a + 1 else a) c = c + countNotifications q := by
  induction q generalizing c with
  | nil => simp [countNotifications]
  | cons m t ih =>
    simp only [List.foldl_cons]
    rw [ih]
    have h2 : countNotifications (m :: t) = (if m.isNotification then 0 + 1 else 0) + countNotifications t := by
      show List.foldl (fun a m => if m.isNotification then a + 1 else a) 0 (m :: t) = _
      simp only [List.foldl_cons]
      rw [ih]
    rw [h2]
    cases m.isNotification
    · simp
    · simp
      omega

lemma countNotifications_cons (m : Message) (q : List Message) :
    countNotifications (m :: q) = (if m.isNotification then 1 else 0) + countNotifications q := by
  show List.foldl (fun a m => if m.isNotification then a + 1 else a) 0 (m :: q) = _
  simp only [List.foldl_cons]
  rw [countNotifications_shift]

lemma countNotifications_append_one (q : List Message) (m : Message) :
    countNotifications (q ++ [m]) = countNotifications q + (if m.isNotification then 1 else 0) := by
  induction q with
  | nil =>
    rw [List.nil_append, countNotifications_cons]
    cases m.isNotification <;> simp [countNotifications]
  | cons a t ih =>
    rw [List.cons_append, countNotifications_cons, countNotifications_cons, ih]
    omega

lemma filter_of_countNotifications_zero (q : List Message) (h : countNotifications q = 0) :
    q.filter (fun m => !(m.isNotification)) = q := by
  induction q with
  | nil => rfl
  | cons m t ih =>
    rw [countNotifications_cons] at h
    cases hm : m.isNotification with
    | true =>
      rw [hm, if_pos rfl] at h
      omega
    | false =>
      rw [hm, if_neg (by simp)] at h
      simp only [List.filter_cons, hm, Bool.not_false, ite_true]
      rw [ih (by omega)]

lemma batchNotification_hinted (B : Nat) (inp : NotificationInput) (s : DevToolsState)
    (h : s.snapshotHinted_ = true) :
    batchNotification_ B inp s = s := by
  unfold batchNotification_
  rw [h]
  simp

lemma batchNotification_no_connection (B : Nat) (inp : NotificationInput) (s : DevToolsState)
    (h : s.connection_ = false) :
    batchNotification_ B inp s = s := by
  unfold batchNotification_
  rw [h]
  simp

lemma batchNotification_enqueue (B : Nat) (inp : NotificationInput) (s : DevToolsState)
    (hc : s.connection_ = true) (hh : s.snapshotHinted_ = false)
    (hcount : countNotifications s.batchQueue_ ≤ B) :
    batchNotification_ B inp s = batchMessage_ (Message.notification (toNotification_ inp)) s := by
  unfold batchNotification_
  rw [hc, hh]
  simp [Nat.not_lt.mpr hcount]

lemma batchNotification_collapse (B : Nat) (inp : NotificationInput) (s : DevToolsState)
    (hc : s.connection_ = true) (hh : s.snapshotHinted_ = false)
    (hcount : B < countNotifications s.batchQueue_) (harmed : s.batchTimerArmed_ = true) :
    batchNotification_ B inp s =
      { s with batchQueue_ := s.batchQueue_.filter (fun m => !(m.isNotification)) ++ [Message.snapshotHint]
             , snapshotHinted_ := true } := by
  have harm2 :
      (({ s with batchQueue_ := s.batchQueue_.filter (fun m => !(m.isNotification)) }) : DevToolsState).batchTimerArmed_ = true :=
    harmed
  unfold batchNotification_
  rw [if_pos hc, if_neg (show ¬(s.snapshotHinted_ = true) by simp [hh]), if_pos hcount,
      batchMessage_armed _ _ harm2]

lemma foldNotify_hinted (B : Nat) (inputs : List NotificationInput) (s : DevToolsState)
    (h : s.snapshotHinted_ = true) :
    foldNotify B inputs s = s := by
  induction inputs with
  | nil => rfl
  | cons i t ih =>
    show foldNotify B t (batchNotification_ B i s) = s
    rw [batchNotification_hinted B i s h]
    exact ih

lemma foldNotify_cons (B : Nat) (i : NotificationInput) (t : List NotificationInput) (s : DevToolsState) :
    foldNotify B (i :: t) s = foldNotify B t (batchNotification_ B i s) := rfl

lemma collapseFold (inputs : List NotificationInput) (B : Nat) (s : DevToolsState)
    (hne : inputs ≠ []) (harmed : s.batchTimerArmed_ = true) (hc : s.connection_ = true)
    (hh : s.snapshotHinted_ = false)
    (hcount : B + 2 ≤ countNotifications s.batchQueue_ + inputs.length) :
    foldNotify B inputs s =
      { s with batchQueue_ := s.batchQueue_.filter (fun m => !(m.isNotification)) ++ [Message.snapshotHint]
             , snapshotHinted_ := true } := by
  induction inputs generalizing s with
  | nil => exact absurd rfl hne
  | cons i t ih =>
    rw [foldNotify_cons]
    rcases Nat.lt_or_ge B (countNotifications s.batchQueue_) with hgt | hle
    · rw [batchNotification_collapse B i s hc hh hgt harmed]
      exact foldNotify_hinted B t _ rfl
    · rw [batchNotification_enqueue B i s hc hh hle,
          batchMessage_armed _ _ harmed]
      have hlen : t ≠ [] := by
        intro ht
        rw [ht] at hcount
        simp at hcount
        omega
      have hq : countNotifications (s.batchQueue_ ++ [Message.notification (toNotification_ i)]) =
          countNotifications s.batchQueue_ + 1 := by
        rw [countNotifications_append_one]
        rfl
      have hcount2 :
          B + 2 ≤
            countNotifications
                (({ s with batchQueue_ := s.batchQueue_ ++ [Message.notification (toNotification_ i)] } : DevToolsState)).batchQueue_ +
              t.length := by
        show B + 2 ≤ countNotifications (s.batchQueue_ ++ [Message.notification (toNotification_ i)]) + t.length
        rw [hq]
        simp only [List.length_cons] at hcount
        omega
      rw [ih ({ s with batchQueue_ := s.batchQueue_ ++ [Message.notification (toNotification_ i)] })
            hlen harmed hc hh hcount2]
      have hfil :
          (s.batchQueue_ ++ [Message.notification (toNotification_ i)]).filter (fun m => !(m.isNotification)) =
            s.batchQueue_.filter (fun m => !(m.isNotification)) := by
        rw [List.filter_append]
        simp [Message.isNotification]
      simp only [hfil]

lemma foldBatch_armed (ms : List Message) (s : DevToolsState) (h : s.batchTimerArmed_ = true) :
    ms.foldl (fun st m => batchMessage_ m st) s = { s with batchQueue_ := s.batchQueue_ ++ ms } := by
  induction ms generalizing s with
  | nil => simp
  | cons m t ih =>
    rw [List.foldl_cons, batchMessage_armed m s h,
        ih ({ s with batchQueue_ := s.batchQueue_ ++ [m] }) h]
    simp

lemma teardown_connection (s : DevToolsState) : (teardown s).connection_ = false := by
  unfold teardown
  by_cases h1 : s.batchTimerArmed_ <;> by_cases h2 : s.connection_ <;> simp_all

lemma teardown_timer (s : DevToolsState) : (teardown s).batchTimerArmed_ = false := by
  unfold teardown
  by_cases h1 : s.batchTimerArmed_ <;> by_cases h2 : s.connection_ <;> simp_all

lemma teardown_snapshotHinted (s : DevToolsState) : (teardown s).snapshotHinted_ = s.snapshotHinted_ := by
  unfold teardown
  by_cases h1 : s.batchTimerArmed_ <;> by_cases h2 : s.connection_ <;> simp_all

lemma teardown_batchQueue (s : DevToolsState) : (teardown s).batchQueue_ = s.batchQueue_ := by
  unfold teardown
  by_cases h1 : s.batchTimerArmed_ <;> by_cases h2 : s.connection_ <;> simp_all

lemma step_no_connection (B : Nat) (e : Event) (s : DevToolsState) (h : s.connection_ = false) :
    ∃ s', step B e s = some (s', []) ∧ s'.connection_ = false := by
  cases e with
  | afterSubscribeEv ref ext =>
    exact ⟨s, by rw [step, afterSubscribe, batchNotification_no_connection _ _ _ h], h⟩
  | afterUnsubscribeEv ref ext =>
    exact ⟨s, by rw [step, afterUnsubscribe, batchNotification_no_connection _ _ _ h], h⟩
  | beforeCompleteEv ref ext =>
    exact ⟨s, by rw [step, beforeComplete, batchNotification_no_connection _ _ _ h], h⟩
  | beforeErrorEv ref err ext =>
    exact ⟨s, by rw [step, beforeError, batchNotification_no_connection _ _ _ h], h⟩
  | beforeNextEv ref v ext =>
    exact ⟨s, by rw [step, beforeNext, batchNotification_no_connection _ _ _ h], h⟩
  | beforeSubscribeEv ref ext =>
    exact ⟨s, by rw [step, beforeSubscribe, batchNotification_no_connection _ _ _ h], h⟩
  | beforeUnsubscribeEv ref ext =>
    exact ⟨s, by rw [step, beforeUnsubscribe, batchNotification_no_connection _ _ _ h], h⟩
  | deckStatsEv spyId stats =>
    refine ⟨batchDeckStats_ (toStats spyId stats) s, rfl, ?_⟩
    rw [batchDeckStats_connection]
    exact h
  | timerFire =>
    refine ⟨s, ?_, h⟩
    rw [step]
    by_cases h1 : s.batchTimerArmed_ <;> simp [h1, h]
  | teardownEv =>
    refine ⟨teardown s, rfl, teardown_connection s⟩
  | request r =>
    refine ⟨s, ?_, h⟩
    rw [step, if_neg (by simp [h])]

lemma run_no_connection (B : Nat) (evs : List Event) (s : DevToolsState) (h : s.connection_ = false) :
    ∃ s', run B evs s = some (s', []) ∧ s'.connection_ = false := by
  induction evs generalizing s with
  | nil => exact ⟨s, rfl, h⟩
  | cons e t ih =>
    obtain ⟨s1, hstep, hc1⟩ := step_no_connection B e s h
    obtain ⟨s2, hrun, hc2⟩ := ih s1 hc1
    refine ⟨s2, ?_, hc2⟩
    rw [run, hstep]
    dsimp only
    rw [hrun]
    rfl

lemma some_pair_inj {s1 s2 : DevToolsState} {r1 r2 : Response}
    (h : (some (s1, r1) : Option (DevToolsState × Response)) = some (s2, r2)) :
    s1 = s2 ∧ r1 = r2 := by
  simpa using h

lemma teardownPlugin_frame (pluginId : String) (s : DevToolsState) :
    (teardownPlugin_ pluginId s).snapshotHinted_ = s.snapshotHinted_ ∧
    (teardownPlugin_ pluginId s).batchQueue_ = s.batchQueue_ ∧
    (teardownPlugin_ pluginId s).connection_ = s.connection_ := by
  unfold teardownPlugin_
  cases mapGet s.plugins_ pluginId <;> exact ⟨rfl, rfl, rfl⟩

lemma dispatchDeckCommand_frame (f : Deck → Deck) (pid : String) (record : PluginRecord)
    (s s' : DevToolsState) (resp resp' : Response)
    (h : dispatchDeckCommand f pid record s resp = some (s', resp')) :
    s'.snapshotHinted_ = s.snapshotHinted_ ∧ s'.batchQueue_ = s.batchQueue_ := by
  unfold dispatchDeckCommand at h
  cases hp : record.plugin with
  | log =>
    rw [hp] at h
    exact absurd h (by simp)
  | pause deck =>
    rw [hp] at h
    obtain ⟨hs, -⟩ := some_pair_inj h
    rw [← hs]
    exact ⟨rfl, rfl⟩

lemma handleRequest_frame (r : Request) (s s' : DevToolsState) (resp : Response)
    (hne : r.requestType ≠ "snapshot") (h : handleRequest r s = some (s', resp)) :
    s'.snapshotHinted_ = s.snapshotHinted_ ∧ s'.batchQueue_ = s.batchQueue_ := by
  simp only [handleRequest] at h
  by_cases h1 : r.requestType = "log"
  · rw [if_pos h1] at h
    obtain ⟨hs, -⟩ := some_pair_inj h
    rw [← hs]
    exact ⟨rfl, rfl⟩
  rw [if_neg h1] at h
  by_cases h2 : r.requestType = "log-teardown"
  · rw [if_pos h2] at h
    obtain ⟨hs, -⟩ := some_pair_inj h
    rw [← hs]
    exact ⟨(teardownPlugin_frame _ s).1, (teardownPlugin_frame _ s).2.1⟩
  rw [if_neg h2] at h
  by_cases h3 : r.requestType = "pause"
  · rw [if_pos h3] at h
    obtain ⟨hs, -⟩ := some_pair_inj h
    rw [← hs]
    exact ⟨rfl, rfl⟩
  rw [if_neg h3] at h
  by_cases h4 : r.requestType = "pause-command"
  · rw [if_pos h4] at h
    cases hmg : mapGet s.plugins_ r.pluginId with
    | none =>
      rw [hmg] at h
      dsimp only at h
      obtain ⟨hs, -⟩ := some_pair_inj h
      rw [← hs]
      exact ⟨rfl, rfl⟩
    | some record =>
      rw [hmg] at h
      dsimp only at h
      by_cases hc1 : r.command = "clear"
      · rw [if_pos hc1] at h
        exact dispatchDeckCommand_frame _ _ _ _ _ _ _ h
      rw [if_neg hc1] at h
      by_cases hc2 : r.command = "pause"
      · rw [if_pos hc2] at h
        exact dispatchDeckCommand_frame _ _ _ _ _ _ _ h
      rw [if_neg hc2] at h
      by_cases hc3 : r.command = "resume"
      · rw [if_pos hc3] at h
        exact dispatchDeckCommand_frame _ _ _ _ _ _ _ h
      rw [if_neg hc3] at h
      by_cases hc4 : r.command = "skip"
      · rw [if_pos hc4] at h
        exact dispatchDeckCommand_frame _ _ _ _ _ _ _ h
      rw [if_neg hc4] at h
      by_cases hc5 : r.command = "step"
      · rw [if_pos hc5] at h
        exact dispatchDeckCommand_frame _ _ _ _ _ _ _ h
      rw [if_neg hc5] at h
      by_cases hc6 : r.command = "inspect"
      · rw [if_pos hc6] at h
        obtain ⟨hs, -⟩ := some_pair_inj h
        rw [← hs]
        exact ⟨rfl, rfl⟩
      rw [if_neg hc6] at h
      obtain ⟨hs, -⟩ := some_pair_inj h
      rw [← hs]
      exact ⟨rfl, rfl⟩
  rw [if_neg h4] at h
  by_cases h5 : r.requestType = "pause-teardown"
  · rw [if_pos h5] at h
    obtain ⟨hs, -⟩ := some_pair_inj h
    rw [← hs]
    exact ⟨(teardownPlugin_frame _ s).1, (teardownPlugin_frame _ s).2.1⟩
  rw [if_neg h5] at h
  rw [if_neg hne] at h
  obtain ⟨hs, -⟩ := some_pair_inj h
  rw [← hs]
  exact ⟨rfl, rfl⟩

lemma some_post_inj {s1 s2 : DevToolsState} {p1 p2 : List Post}
    (h : (some (s1, p1) : Option (DevToolsState × List Post)) = some (s2, p2)) :
    s1 = s2 ∧ p1 = p2 := by
  simpa using h

lemma countHints_append (a b : List Message) :
    countHints (a ++ b) = countHints a + countHints b :=
  List.countP_append _ a b

lemma countHints_filter_le (p : Message → Bool) (q : List Message) :
    countHints (q.filter p) ≤ countHints q :=
  (List.filter_sublist q).countP_le _

lemma countHints_deckStats (p : DeckStatsPayload) :
    countHints [Message.deckStats p] = 0 := by
  simp [countHints, List.countP_cons, Message.isSnapshotHint]

lemma batchDeckStats_hints_le (p : DeckStatsPayload) (s : DevToolsState) :
    countHints (batchDeckStats_ p s).batchQueue_ ≤ countHints s.batchQueue_ := by
  unfold batchDeckStats_
  by_cases harm : s.batchTimerArmed_ = true
  · rw [batchMessage_armed (Message.deckStats p)
        ({ s with batchQueue_ := s.batchQueue_.filter (fun m => keepForDeckStats p.id m) }) harm]
    show countHints (s.batchQueue_.filter (fun m => keepForDeckStats p.id m) ++ [Message.deckStats p]) ≤ _
    rw [countHints_append, countHints_deckStats]
    simpa using countHints_filter_le _ _
  · rw [batchMessage_unarmed (Message.deckStats p)
        ({ s with batchQueue_ := s.batchQueue_.filter (fun m => keepForDeckStats p.id m) })
        (by simpa using harm)]
    show countHints [Message.deckStats p] ≤ _
    rw [countHints_deckStats]
    exact Nat.zero_le _

lemma step_hinted_bound (B : Nat) (e : Event) (s s' : DevToolsState) (ps : List Post)
    (hh : s.snapshotHinted_ = true) (hns : isSnapshotRequest e = false)
    (h : step B e s = some (s', ps)) :
    s'.snapshotHinted_ = true ∧
    countHints s'.batchQueue_ + postsHints ps ≤ countHints s.batchQueue_ := by
  cases e with
  | afterSubscribeEv ref ext =>
    rw [step, afterSubscribe, batchNotification_hinted _ _ _ hh] at h
    obtain ⟨hs, hps⟩ := some_post_inj h
    rw [← hs, ← hps]
    exact ⟨hh, by simp [postsHints]⟩
  | afterUnsubscribeEv ref ext =>
    rw [step, afterUnsubscribe, batchNotification_hinted _ _ _ hh] at h
    obtain ⟨hs, hps⟩ := some_post_inj h
    rw [← hs, ← hps]
    exact ⟨hh, by simp [postsHints]⟩
  | beforeCompleteEv ref ext =>
    rw [step, beforeComplete, batchNotification_hinted _ _ _ hh] at h
    obtain ⟨hs, hps⟩ := some_post_inj h
    rw [← hs, ← hps]
    exact ⟨hh, by simp [postsHints]⟩
  | beforeErrorEv ref err ext =>
    rw [step, beforeError, batchNotification_hinted _ _ _ hh] at h
    obtain ⟨hs, hps⟩ := some_post_inj h
    rw [← hs, ← hps]
    exact ⟨hh, by simp [postsHints]⟩
  | beforeNextEv ref v ext =>
    rw [step, beforeNext, batchNotification_hinted _ _ _ hh] at h
    obtain ⟨hs, hps⟩ := some_post_inj h
    rw [← hs, ← hps]
    exact ⟨hh, by simp [postsHints]⟩
  | beforeSubscribeEv ref ext =>
    rw [step, beforeSubscribe, batchNotification_hinted _ _ _ hh] at h
    obtain ⟨hs, hps⟩ := some_post_inj h
    rw [← hs, ← hps]
    exact ⟨hh, by simp [postsHints]⟩
  | beforeUnsubscribeEv ref ext =>
    rw [step, beforeUnsubscribe, batchNotification_hinted _ _ _ hh] at h
    obtain ⟨hs, hps⟩ := some_post_inj h
    rw [← hs, ← hps]
    exact ⟨hh, by simp [postsHints]⟩
  | deckStatsEv spyId stats =>
    rw [step] at h
    obtain ⟨hs, hps⟩ := some_post_inj h
    rw [← hs, ← hps]
    constructor
    · rw [batchDeckStats_snapshotHinted]
      exact hh
    · have hle := batchDeckStats_hints_le (toStats spyId stats) s
      simpa [postsHints] using hle
  | timerFire =>
    rw [step] at h
    by_cases harm : s.batchTimerArmed_ = true
    · rw [if_pos harm] at h
      by_cases hcn : s.connection_ = true
      · rw [if_pos hcn] at h
        obtain ⟨hs, hps⟩ := some_post_inj h
        rw [← hs, ← hps]
        refine ⟨hh, ?_⟩
        simp [postsHints, postHint, countHints]
      · rw [if_neg hcn] at h
        obtain ⟨hs, hps⟩ := some_post_inj h
        rw [← hs, ← hps]
        exact ⟨hh, by simp [postsHints]⟩
    · rw [if_neg harm] at h
      obtain ⟨hs, hps⟩ := some_post_inj h
      rw [← hs, ← hps]
      exact ⟨hh, by simp [postsHints]⟩
  | teardownEv =>
    rw [step] at h
    obtain ⟨hs, hps⟩ := some_post_inj h
    rw [← hs, ← hps]
    refine ⟨?_, ?_⟩
    · rw [teardown_snapshotHinted]
      exact hh
    · rw [teardown_batchQueue]
      simp [postsHints]
  | request r =>
    rw [step] at h
    by_cases hcn : s.connection_ = true
    · rw [if_pos hcn] at h
      cases hhr : handleRequest r s with
      | none =>
        rw [hhr] at h
        exact absurd h (by simp)
      | some pr =>
        obtain ⟨s1, resp⟩ := pr
        rw [hhr] at h
        dsimp only at h
        obtain ⟨hs, hps⟩ := some_post_inj h
        have hfr := handleRequest_frame r s s1 resp (by simpa [isSnapshotRequest] using hns) hhr
        rw [← hs, ← hps]
        constructor
        · rw [hfr.1]
          exact hh
        · rw [hfr.2]
          simp [postsHints, postHint]
    · rw [if_neg hcn] at h
      obtain ⟨hs, hps⟩ := some_post_inj h
      rw [← hs, ← hps]
      exact ⟨hh, by simp [postsHints]⟩

lemma run_hinted_bound (B : Nat) (evs : List Event) (s s' : DevToolsState) (ps : List Post)
    (hh : s.snapshotHinted_ = true)
    (hns : evs.all (fun e => !(isSnapshotRequest e)) = true)
    (h : run B evs s = some (s', ps)) :
    s'.snapshotHinted_ = true ∧
    countHints s'.batchQueue_ + postsHints ps ≤ countHints s.batchQueue_ := by
  induction evs generalizing s s' ps with
  | nil =>
    obtain ⟨hs, hps⟩ := some_post_inj h
    rw [← hs, ← hps]
    exact ⟨hh, by simp [postsHints]⟩
  | cons e t ih =>
    rw [run] at h
    cases hstep : step B e s with
    | none =>
      rw [hstep] at h
      exact absurd h (by simp)
    | some pr =>
      obtain ⟨s1, ps1⟩ := pr
      rw [hstep] at h
      dsimp only at h
      cases hrun : run B t s1 with
      | none =>
        rw [hrun] at h
        exact absurd h (by simp)
      | some pr2 =>
        obtain ⟨s2, ps2⟩ := pr2
        rw [hrun] at h
        dsimp only at h
        obtain ⟨hs, hps⟩ := some_post_inj h
        simp only [List.all_cons, Bool.and_eq_true] at hns
        obtain ⟨hnse, hnst⟩ := hns
        have h1 := step_hinted_bound B e s s1 ps1 hh (by simpa using hnse) hstep
        have h2 := ih s1 s2 ps2 h1.1 hnst hrun
        rw [← hs, ← hps]
        refine ⟨h2.1, ?_⟩
        have hsplit : postsHints (ps1 ++ ps2) = postsHints ps1 + postsHints ps2 := by
          simp [postsHints]
        rw [hsplit]
        have hb1 := h1.2
        have hb2 := h2.2
        omega

lemma handleRequest_snapshot (r : Request) (s : DevToolsState) (h : r.requestType = "snapshot") :
    ∃ resp, handleRequest r s = some ({ s with snapshotHinted_ := false }, resp) := by
  simp only [handleRequest]
  cases hsp : s.snapshotPlugin_ with
  | none =>
    refine ⟨{ request := r, error := some "Cannot find snapshot plugin." }, ?_⟩
    rw [if_neg (by simp [h]), if_neg (by simp [h]), if_neg (by simp [h]), if_neg (by simp [h]),
        if_neg (by simp [h]), if_pos h]
  | some snap =>
    refine ⟨{ request := r, snapshot := some snap }, ?_⟩
    rw [if_neg (by simp [h]), if_neg (by simp [h]), if_neg (by simp [h]), if_neg (by simp [h]),
        if_neg (by simp [h]), if_pos h]

lemma mapGet_mapDelete {α : Type} (l : List (String × α)) (k : String) :
    mapGet (mapDelete l k) k = none := by
  induction l with
  | nil => rfl
  | cons p rest ih =>
    obtain ⟨k1, v1⟩ := p
    unfold mapDelete
    by_cases hk : k1 = k
    · rw [if_pos hk]
      exact ih
    · rw [if_neg hk]
      unfold mapGet
      rw [if_neg hk]
      exact ih

lemma filter_keep_isFor (d : String) (q : List Message) :
    (q.filter (fun m => keepForDeckStats d m)).filter (fun m => Message.isDeckStatsFor d m) = [] := by
  rw [List.filter_eq_nil_iff]
  intro a ha
  have hk := List.of_mem_filter ha
  cases a with
  | deckStats st =>
    simp only [keepForDeckStats] at hk
    simp only [Message.isDeckStatsFor]
    simp only [bne_iff_ne, ne_eq] at hk
    simp [hk]
  | notification p => simp [Message.isDeckStatsFor]
  | snapshotHint => simp [Message.isDeckStatsFor]

lemma toNotification_value (inp : NotificationInput) :
    (toNotification_ inp).value = inp.nref.value.map toValue := by
  cases hv : inp.nref.value
  · simp [toNotification_, hv]
  · simp [toNotification_, hv]

lemma toNotification_type (inp : NotificationInput) :
    (toNotification_ inp).type =
      phaseString inp.nref.phase ++ "-" ++ notificationString inp.nref.notification := rfl

lemma batchNotification_queue_append (B : Nat) (inp : NotificationInput) (s : DevToolsState)
    (hc : s.connection_ = true) (hh : s.snapshotHinted_ = false)
    (harmed : s.batchTimerArmed_ = true) (hcnt : countNotifications s.batchQueue_ ≤ B) :
    (batchNotification_ B inp s).batchQueue_ =
      s.batchQueue_ ++ [Message.notification (toNotification_ inp)] := by
  rw [batchNotification_enqueue B inp s hc hh hcnt, batchMessage_armed _ _ harmed]

lemma batchDeckStats_unarmed (p : DeckStatsPayload) (s : DevToolsState)
    (h : s.batchTimerArmed_ = false) :
    batchDeckStats_ p s =
      { s with batchQueue_ := [Message.deckStats p], batchTimerArmed_ := true } := by
  unfold batchDeckStats_
  rw [batchMessage_unarmed (Message.deckStats p)
      ({ s with batchQueue_ := s.batchQueue_.filter (fun m => keepForDeckStats p.id m) }) h]

/- Concrete sample values used by the closed witnesses and counterexamples. -/

/-- A sample subscription reference. -/
def sampleRef : SubscriptionRef :=
  { observableId := 1, observablePath := "p", observableTag := none
  , observableType := "t", subscriberId := 2, subscriptionId := 3
  , graph := none, stackTrace := none }

/-- Sample sampled externals. -/
def sampleExt : Externals := { tick := 5, timestamp := 9, freshId := 7 }

/-- A sample deck-stats payload. -/
def sampleStats : DeckStatsPayload := { id := "d1", buffered := 1, resumed := 0, skipped := 0 }

/-- A later deck-stats payload for the same deck id. -/
def sampleStats2 : DeckStatsPayload := { id := "d1", buffered := 2, resumed := 1, skipped := 0 }

/-- A sample before-next lifecycle input. -/
def sampleInput : NotificationInput :=
  { nref := { error := none, notification := .next, phase := .before, ref := sampleRef, value := some "42" }
  , ext := sampleExt }

/-- A connected session with an open batch window holding one deck-stats
message and no queued notifications. -/
def sampleOpenState : DevToolsState :=
  { batchQueue_ := [Message.deckStats sampleStats]
  , batchTimerArmed_ := true
  , connection_ := true
  , plugins_ := []
  , snapshotHinted_ := false
  , snapshotPlugin_ := none
  , teardownsRun_ := [] }

/-- The open-window session with one queued notification message as well. -/
def sampleNotifiedState : DevToolsState :=
  { sampleOpenState with
      batchQueue_ := [Message.deckStats sampleStats, Message.notification (toNotification_ sampleInput)] }

/-- The open-window session with the overload flag already set. -/
def sampleHintedState : DevToolsState :=
  { sampleOpenState with snapshotHinted_ := true }

/-- A sample inbound snapshot request. -/
def snapshotRequest : Request :=
  { requestType := "snapshot", postId := "p1", spyId := "s1", pluginId := "", command := "" }

/- Claim theorems. -/

/-- C1 counterexample: with BATCH_NOTIFICATIONS = 0, enqueuing 0 + 1 = 1
notification broadcast into an open batch window that holds no queued
notification message does not collapse the queue to a snapshot-hint and
does not set the snapshotHinted_ flag: the collapse only fires on the
arrival that finds more than BATCH_NOTIFICATIONS notification messages
already queued, so this open window refutes the claim as stated. -/
theorem C1_counterexample :
    (foldNotify 0 [sampleInput] sampleOpenState).snapshotHinted_ = false ∧
    countHints (foldNotify 0 [sampleInput] sampleOpenState).batchQueue_ = 0 ∧
    countNotifications (foldNotify 0 [sampleInput] sampleOpenState).batchQueue_ = 1 := by
  decide

/-- C1 (amended): for every open batch window already holding at least one
queued notification message, enqueuing BATCH_NOTIFICATIONS + 1 further
notification broadcasts within that window collapses the queued
notification messages to a single snapshot-hint broadcast (appended after
the untouched non-notification messages), sets the session snapshotHinted_
flag, and suppresses all further notification broadcasts; the collapse
fires when the count of notification messages already queued exceeds
BATCH_NOTIFICATIONS. -/
theorem C1_overload_collapse_amended (B : Nat) (s : DevToolsState)
    (inputs : List NotificationInput)
    (harmed : s.batchTimerArmed_ = true) (hc : s.connection_ = true)
    (hh : s.snapshotHinted_ = false) (hq : 1 ≤ countNotifications s.batchQueue_)
    (hlen : inputs.length = B + 1) :
    (foldNotify B inputs s).batchQueue_ =
      s.batchQueue_.filter (fun m => !(m.isNotification)) ++ [Message.snapshotHint] ∧
    (foldNotify B inputs s).snapshotHinted_ = true ∧
    (∀ inp, batchNotification_ B inp (foldNotify B inputs s) = foldNotify B inputs s) := by
  have hne : inputs ≠ [] := by
    intro h0
    rw [h0] at hlen
    simp at hlen
  have hcount : B + 2 ≤ countNotifications s.batchQueue_ + inputs.length := by
    rw [hlen]
    omega
  have hcf := collapseFold inputs B s hne harmed hc hh hcount
  rw [hcf]
  exact ⟨rfl, rfl, fun inp => batchNotification_hinted _ _ _ rfl⟩

/-- C1 witness: the amended collapse at BATCH_NOTIFICATIONS = 0 on the
sample open window that already holds one queued notification. -/
theorem C1_overload_collapse_amended_witness :
    sampleNotifiedState.batchTimerArmed_ = true ∧
    sampleNotifiedState.connection_ = true ∧
    sampleNotifiedState.snapshotHinted_ = false ∧
    1 ≤ countNotifications sampleNotifiedState.batchQueue_ ∧
    ([sampleInput].length = 0 + 1) ∧
    (foldNotify 0 [sampleInput] sampleNotifiedState).batchQueue_ =
      sampleNotifiedState.batchQueue_.filter (fun m => !(m.isNotification)) ++ [Message.snapshotHint] ∧
    (foldNotify 0 [sampleInput] sampleNotifiedState).snapshotHinted_ = true := by
  have h := C1_overload_collapse_amended 0 sampleNotifiedState [sampleInput]
    rfl rfl rfl (by decide) rfl
  exact ⟨rfl, rfl, rfl, by decide, rfl, h.1, h.2.1⟩

/-- C2 counterexample: a snapshot request processed while no snapshot plugin
is attached yields the error response and builds no snapshot, yet still
clears the snapshotHinted_ flag, refuting the claim that a clearing of the
flag coincides only with a snapshot actually being built and returned. -/
theorem C2_counterexample :
    step 0 (Event.request snapshotRequest) sampleHintedState =
      some ({ sampleHintedState with snapshotHinted_ := false },
        [Post.response { request := snapshotRequest, error := some "Cannot find snapshot plugin." }]) ∧
    sampleHintedState.snapshotPlugin_ = none ∧
    sampleHintedState.snapshotHinted_ = true := by
  refine ⟨by decide, rfl, rfl⟩

/-- C2 (amended): the snapshotHinted_ flag, once set, transitions back to
false exactly by the processing of a snapshot request: any step clearing
the flag is a snapshot request, and conversely every snapshot request
processed while connected clears the flag — whether or not a snapshot
plugin is attached and a snapshot is actually built and returned. -/
theorem C2_snapshot_clearing (B : Nat) :
    (∀ (e : Event) (s s' : DevToolsState) (ps : List Post),
      s.snapshotHinted_ = true → step B e s = some (s', ps) →
      s'.snapshotHinted_ = false →
      ∃ r, e = Event.request r ∧ r.requestType = "snapshot") ∧
    (∀ (r : Request) (s : DevToolsState),
      s.connection_ = true → r.requestType = "snapshot" →
      ∃ resp, step B (Event.request r) s =
        some ({ s with snapshotHinted_ := false }, [Post.response resp])) := by
  constructor
  · intro e s s' ps hh h hcl
    cases hse : isSnapshotRequest e with
    | false =>
      have hpres := (step_hinted_bound B e s s' ps hh hse h).1
      rw [hpres] at hcl
      exact absurd hcl (by simp)
    | true =>
      cases e
      case request r =>
        exact ⟨r, rfl, by simpa [isSnapshotRequest] using hse⟩
      all_goals simp [isSnapshotRequest] at hse
  · intro r s hcn hr
    obtain ⟨resp, hhr⟩ := handleRequest_snapshot r s hr
    refine ⟨resp, ?_⟩
    rw [step, if_pos hcn, hhr]

/-- C2 witness: both directions of the amended statement at the sample
hinted session and the sample snapshot request. -/
theorem C2_snapshot_clearing_witness :
    (∃ r, Event.request snapshotRequest = Event.request r ∧ r.requestType = "snapshot") ∧
    (∃ resp, step 0 (Event.request snapshotRequest) sampleHintedState =
      some ({ sampleHintedState with snapshotHinted_ := false }, [Post.response resp])) := by
  constructor
  · exact (C2_snapshot_clearing 0).1 (Event.request snapshotRequest) sampleHintedState
      ({ sampleHintedState with snapshotHinted_ := false })
      [Post.response { request := snapshotRequest, error := some "Cannot find snapshot plugin." }]
      rfl (by decide) rfl
  · exact (C2_snapshot_clearing 0).2 snapshotRequest sampleHintedState rfl rfl

/-- C3 counterexample: a before-error lifecycle event enqueues a payload
whose type is before-error but whose value field is absent — the error is
carried in the subscription descriptor instead — refuting the claim that
the value field is present exactly when the event is a next or an error. -/
theorem C3_counterexample :
    (beforeError 0 sampleRef (some "boom") sampleExt sampleOpenState).batchQueue_ =
      [Message.deckStats sampleStats,
       Message.notification
         { id := 7
         , observable := { id := 1, path := "p", tag := none, type := "t" }
         , subscriber := { id := 2 }
         , subscription := { error := some "boom", graph := none, id := 3, stackTrace := none }
         , tick := 5, timestamp := 9, type := "before-error", value := none }] := by
  decide

/-- C3 (amended): every built payload has type equal to the phase marker, a
hyphen and the notification name, with marker and name drawn from the
advertised sets, and its value field equals the cycle-safe serialization of
the value member of the lifecycle reference; consequently, under an open
non-overloaded window, each lifecycle method enqueues a payload whose value
is present exactly when the event is a next with a defined emitted value —
in particular a before-error payload has no value and carries its error in
the subscription descriptor — and absent for all other event kinds. -/
theorem C3_payload_type_value (B : Nat) (s : DevToolsState) (ref : SubscriptionRef)
    (v e : Option String) (ext : Externals)
    (hc : s.connection_ = true) (hh : s.snapshotHinted_ = false)
    (harmed : s.batchTimerArmed_ = true) (hcnt : countNotifications s.batchQueue_ ≤ B) :
    (∀ inp : NotificationInput,
      (toNotification_ inp).type =
        phaseString inp.nref.phase ++ "-" ++ notificationString inp.nref.notification ∧
      phaseString inp.nref.phase ∈ ["before", "after"] ∧
      notificationString inp.nref.notification ∈
        ["subscribe", "unsubscribe", "next", "error", "complete"] ∧
      (toNotification_ inp).value = inp.nref.value.map toValue) ∧
    (beforeNext B ref v ext s).batchQueue_ = s.batchQueue_ ++
      [Message.notification (toNotification_
        { nref := { error := none, notification := .next, phase := .before, ref := ref, value := v }
        , ext := ext })] ∧
    (toNotification_
        { nref := { error := none, notification := .next, phase := .before, ref := ref, value := v }
        , ext := ext }).type = "before-next" ∧
    (toNotification_
        { nref := { error := none, notification := .next, phase := .before, ref := ref, value := v }
        , ext := ext }).value = v.map toValue ∧
    (beforeError B ref e ext s).batchQueue_ = s.batchQueue_ ++
      [Message.notification (toNotification_
        { nref := { error := e, notification := .error, phase := .before, ref := ref, value := none }
        , ext := ext })] ∧
    (toNotification_
        { nref := { error := e, notification := .error, phase := .before, ref := ref, value := none }
        , ext := ext }).value = none ∧
    (toNotification_
        { nref := { error := e, notification := .error, phase := .before, ref := ref, value := none }
        , ext := ext }).subscription.error = e ∧
    (toNotification_
        { nref := { error := e, notification := .error, phase := .before, ref := ref, value := none }
        , ext := ext }).type = "before-error" ∧
    (beforeSubscribe B ref ext s).batchQueue_ = s.batchQueue_ ++
      [Message.notification (toNotification_
        { nref := { error := none, notification := .subscribe, phase := .before, ref := ref, value := none }
        , ext := ext })] ∧
    (afterSubscribe B ref ext s).batchQueue_ = s.batchQueue_ ++
      [Message.notification (toNotification_
        { nref := { error := none, notification := .subscribe, phase := .after, ref := ref, value := none }
        , ext := ext })] ∧
    (beforeUnsubscribe B ref ext s).batchQueue_ = s.batchQueue_ ++
      [Message.notification (toNotification_
        { nref := { error := none, notification := .unsubscribe, phase := .before, ref := ref, value := none }
        , ext := ext })] ∧
    (afterUnsubscribe B ref ext s).batchQueue_ = s.batchQueue_ ++
      [Message.notification (toNotification_
        { nref := { error := none, notification := .unsubscribe, phase := .after, ref := ref, value := none }
        , ext := ext })] ∧
    (beforeComplete B ref ext s).batchQueue_ = s.batchQueue_ ++
      [Message.notification (toNotification_
        { nref := { error := none, notification := .complete, phase := .before, ref := ref, value := none }
        , ext := ext })] ∧
    (∀ (n : Notification) (ph : Phase) (er : Option String),
      (toNotification_ { nref := { error := er, notification := n, phase := ph, ref := ref, value := none }
                       , ext := ext }).value = none) := by
  refine ⟨?_, ?_, rfl, ?_, ?_, rfl, rfl, rfl, ?_, ?_, ?_, ?_, ?_, fun n ph er => rfl⟩
  · intro inp
    refine ⟨toNotification_type inp, ?_, ?_, toNotification_value inp⟩
    · cases hp : inp.nref.phase <;> simp [phaseString]
    · cases hn : inp.nref.notification <;> simp [notificationString]
  · exact batchNotification_queue_append B _ s hc hh harmed hcnt
  · exact toNotification_value _
  · exact batchNotification_queue_append B _ s hc hh harmed hcnt
  · exact batchNotification_queue_append B _ s hc hh harmed hcnt
  · exact batchNotification_queue_append B _ s hc hh harmed hcnt
  · exact batchNotification_queue_append B _ s hc hh harmed hcnt
  · exact batchNotification_queue_append B _ s hc hh harmed hcnt
  · exact batchNotification_queue_append B _ s hc hh harmed hcnt

/-- C3 witness: the amended payload characterization applied at the sample
open window, sample reference and a defined sample value. -/
theorem C3_payload_type_value_witness :
    (beforeNext 0 sampleRef (some "42") sampleExt sampleOpenState).batchQueue_ =
      sampleOpenState.batchQueue_ ++
      [Message.notification (toNotification_
        { nref := { error := none, notification := .next, phase := .before, ref := sampleRef
                  , value := some "42" }
        , ext := sampleExt })] ∧
    (toNotification_
        { nref := { error := none, notification := .next, phase := .before, ref := sampleRef
                  , value := some "42" }
        , ext := sampleExt }).value = (some "42").map toValue ∧
    (toNotification_
        { nref := { error := some "boom", notification := .error, phase := .before, ref := sampleRef
                  , value := none }
        , ext := sampleExt }).value = none := by
  have h := C3_payload_type_value 0 sampleOpenState sampleRef (some "42") (some "boom") sampleExt
    rfl rfl rfl (by decide)
  exact ⟨h.2.1, h.2.2.2.1, h.2.2.2.2.2.1⟩

/-- C4: with a batch window open, enqueuing a message appends it to the
pending queue; with no window open the queue becomes exactly the single
message and the batch timer is armed; on timer expiry with a connection
still present the entire queue is posted as one batch message and the
window closes (timer disarmed, queue emptied); messages enqueued from a
fresh window appear in the queue in their original enqueue order. -/
theorem C4_enqueue_and_flush (B : Nat) (m : Message) (ms : List Message) (s : DevToolsState) :
    (s.batchTimerArmed_ = true →
      batchMessage_ m s = { s with batchQueue_ := s.batchQueue_ ++ [m] }) ∧
    (s.batchTimerArmed_ = false →
      batchMessage_ m s = { s with batchQueue_ := [m], batchTimerArmed_ := true }) ∧
    (s.batchTimerArmed_ = true → s.connection_ = true →
      step B Event.timerFire s =
        some ({ s with batchTimerArmed_ := false, batchQueue_ := [] },
          [Post.batch s.batchQueue_])) ∧
    (s.batchTimerArmed_ = false →
      (m :: ms).foldl (fun st x => batchMessage_ x st) s =
        { s with batchQueue_ := m :: ms, batchTimerArmed_ := true }) := by
  refine ⟨batchMessage_armed m s, batchMessage_unarmed m s, ?_, ?_⟩
  · intro harm hcn
    rw [step, if_pos harm, if_pos hcn]
  · intro hun
    rw [List.foldl_cons, batchMessage_unarmed m s hun,
        foldBatch_armed ms ({ s with batchQueue_ := [m], batchTimerArmed_ := true }) rfl]
    rfl

/-- C4 witness: the enqueue, open and flush behavior at concrete states. -/
theorem C4_enqueue_and_flush_witness :
    batchMessage_ Message.snapshotHint sampleOpenState =
      { sampleOpenState with batchQueue_ := sampleOpenState.batchQueue_ ++ [Message.snapshotHint] } ∧
    batchMessage_ Message.snapshotHint { sampleOpenState with batchTimerArmed_ := false } =
      { sampleOpenState with batchQueue_ := [Message.snapshotHint] } ∧
    step 0 Event.timerFire sampleOpenState =
      some ({ sampleOpenState with batchTimerArmed_ := false, batchQueue_ := [] },
        [Post.batch sampleOpenState.batchQueue_]) ∧
    ([Message.snapshotHint, Message.deckStats sampleStats].foldl
        (fun st x => batchMessage_ x st) { sampleOpenState with batchTimerArmed_ := false }) =
      { sampleOpenState with
          batchQueue_ := [Message.snapshotHint, Message.deckStats sampleStats] } := by
  refine ⟨?_, ?_, ?_, ?_⟩
  · exact (C4_enqueue_and_flush 0 Message.snapshotHint [] sampleOpenState).1 rfl
  · have h := (C4_enqueue_and_flush 0 Message.snapshotHint []
      ({ sampleOpenState with batchTimerArmed_ := false })).2.1 rfl
    rw [h]
    decide
  · exact (C4_enqueue_and_flush 0 Message.snapshotHint [] sampleOpenState).2.2.1 rfl rfl
  · have h := (C4_enqueue_and_flush 0 Message.snapshotHint [Message.deckStats sampleStats]
      ({ sampleOpenState with batchTimerArmed_ := false })).2.2.2 rfl
    rw [h]
    decide

/-- C5: enqueuing a deck-stats broadcast first removes every still-queued
deck-stats message with the same deck id and then appends the new one, so
after two same-id deck-stats broadcasts within one open batch window the
queue holds exactly the second as its only deck-stats entry for that id,
and the batch flush posts that queue. -/
theorem C5_deck_stats_dedup (B : Nat) (st1 st2 : DeckStatsPayload) (s : DevToolsState)
    (harmed : s.batchTimerArmed_ = true) (hid : st1.id = st2.id) :
    (batchDeckStats_ st1 s).batchQueue_ =
      s.batchQueue_.filter (fun m => keepForDeckStats st1.id m) ++ [Message.deckStats st1] ∧
    (batchDeckStats_ st2 (batchDeckStats_ st1 s)).batchQueue_ =
      s.batchQueue_.filter (fun m => keepForDeckStats st2.id m) ++ [Message.deckStats st2] ∧
    (batchDeckStats_ st2 (batchDeckStats_ st1 s)).batchQueue_.filter
        (fun m => Message.isDeckStatsFor st2.id m) = [Message.deckStats st2] ∧
    (s.connection_ = true →
      step B Event.timerFire (batchDeckStats_ st2 (batchDeckStats_ st1 s)) =
        some ({ batchDeckStats_ st2 (batchDeckStats_ st1 s) with
                  batchTimerArmed_ := false, batchQueue_ := [] },
          [Post.batch (batchDeckStats_ st2 (batchDeckStats_ st1 s)).batchQueue_])) := by
  have h1 := batchDeckStats_armed st1 s harmed
  have harm1 : (batchDeckStats_ st1 s).batchTimerArmed_ = true := by
    rw [h1]
    exact harmed
  have h2 := batchDeckStats_armed st2 (batchDeckStats_ st1 s) harm1
  have hq2 : (batchDeckStats_ st2 (batchDeckStats_ st1 s)).batchQueue_ =
      s.batchQueue_.filter (fun m => keepForDeckStats st2.id m) ++ [Message.deckStats st2] := by
    rw [h2, h1]
    show (s.batchQueue_.filter (fun m => keepForDeckStats st1.id m) ++ [Message.deckStats st1]).filter
        (fun m => keepForDeckStats st2.id m) ++ [Message.deckStats st2] = _
    rw [List.filter_append, List.filter_filter]
    have hst1 : keepForDeckStats st2.id (Message.deckStats st1) = false := by
      simp [keepForDeckStats, hid]
    simp only [List.filter_cons, hst1, Bool.false_eq_true, ite_false, List.filter_nil,
      List.append_nil]
    rw [hid]
    simp
  refine ⟨by rw [h1], hq2, ?_, ?_⟩
  · rw [hq2, List.filter_append, filter_keep_isFor]
    simp [Message.isDeckStatsFor]
  · intro hcn
    have harm2 : (batchDeckStats_ st2 (batchDeckStats_ st1 s)).batchTimerArmed_ = true := by
      rw [h2]
      exact harm1
    have hcn2 : (batchDeckStats_ st2 (batchDeckStats_ st1 s)).connection_ = true := by
      rw [batchDeckStats_connection, batchDeckStats_connection]
      exact hcn
    rw [step, if_pos harm2, if_pos hcn2]

/-- C5 witness: the dedup at the sample open window and two payloads for the
same deck id. -/
theorem C5_deck_stats_dedup_witness :
    (batchDeckStats_ sampleStats2 (batchDeckStats_ sampleStats sampleOpenState)).batchQueue_.filter
        (fun m => Message.isDeckStatsFor sampleStats2.id m) = [Message.deckStats sampleStats2] ∧
    step 0 Event.timerFire (batchDeckStats_ sampleStats2 (batchDeckStats_ sampleStats sampleOpenState)) =
      some ({ batchDeckStats_ sampleStats2 (batchDeckStats_ sampleStats sampleOpenState) with
                batchTimerArmed_ := false, batchQueue_ := [] },
        [Post.batch (batchDeckStats_ sampleStats2 (batchDeckStats_ sampleStats sampleOpenState)).batchQueue_]) := by
  have h := C5_deck_stats_dedup 0 sampleStats sampleStats2 sampleOpenState rfl rfl
  exact ⟨h.2.2.1, h.2.2.2 rfl⟩

/-- C6: a pause-command request and a teardown request whose pluginId is
absent from the plugin map leave the whole host state unchanged and return
a response carrying no error; tearing down the same plugin id a second time
is a no-op, so the recorded teardown procedure runs at most once per
registration. -/
theorem C6_absent_plugin_noop (s : DevToolsState) (r : Request) :
    (r.requestType = "pause-command" → mapGet s.plugins_ r.pluginId = none →
      handleRequest r s = some (s, { request := r })) ∧
    (r.requestType = "pause-teardown" → mapGet s.plugins_ r.pluginId = none →
      handleRequest r s = some (s, { request := r })) ∧
    (r.requestType = "log-teardown" → mapGet s.plugins_ r.pluginId = none →
      handleRequest r s = some (s, { request := r })) ∧
    (∀ pid, teardownPlugin_ pid (teardownPlugin_ pid s) = teardownPlugin_ pid s) := by
  have hnoop : ∀ pid, mapGet s.plugins_ pid = none → teardownPlugin_ pid s = s := by
    intro pid hmg
    unfold teardownPlugin_
    rw [hmg]
  refine ⟨?_, ?_, ?_, ?_⟩
  · intro hr hmg
    simp only [handleRequest]
    rw [if_neg (by simp [hr]), if_neg (by simp [hr]), if_neg (by simp [hr]), if_pos hr, hmg]
  · intro hr hmg
    simp only [handleRequest]
    rw [if_neg (by simp [hr]), if_neg (by simp [hr]), if_neg (by simp [hr]),
        if_neg (by simp [hr]), if_pos hr, hnoop r.pluginId hmg]
  · intro hr hmg
    simp only [handleRequest]
    rw [if_neg (by simp [hr]), if_pos hr, hnoop r.pluginId hmg]
  · intro pid
    by_cases hmg : mapGet s.plugins_ pid = none
    · rw [hnoop pid hmg, hnoop pid hmg]
    · cases hg : mapGet s.plugins_ pid with
      | none => exact absurd hg hmg
      | some record =>
        have h1 : teardownPlugin_ pid s =
            { s with plugins_ := mapDelete s.plugins_ pid,
                     teardownsRun_ := s.teardownsRun_ ++ [pid] } := by
          unfold teardownPlugin_
          rw [hg]
        rw [h1]
        unfold teardownPlugin_
        dsimp only
        rw [mapGet_mapDelete s.plugins_ pid]

/-- C6 witness: the no-ops at the sample session, whose plugin map is
empty, and the teardown idempotence there. -/
theorem C6_absent_plugin_noop_witness :
    handleRequest { requestType := "pause-command", postId := "p2", spyId := "s1"
                  , pluginId := "missing", command := "pause" } sampleOpenState =
      some (sampleOpenState,
        { request := { requestType := "pause-command", postId := "p2", spyId := "s1"
                     , pluginId := "missing", command := "pause" } }) ∧
    handleRequest { requestType := "pause-teardown", postId := "p3", spyId := "s1"
                  , pluginId := "missing", command := "" } sampleOpenState =
      some (sampleOpenState,
        { request := { requestType := "pause-teardown", postId := "p3", spyId := "s1"
                     , pluginId := "missing", command := "" } }) ∧
    teardownPlugin_ "missing" (teardownPlugin_ "missing" sampleOpenState) =
      teardownPlugin_ "missing" sampleOpenState := by
  refine ⟨?_, ?_, ?_⟩
  · exact (C6_absent_plugin_noop sampleOpenState
      { requestType := "pause-command", postId := "p2", spyId := "s1"
      , pluginId := "missing", command := "pause" }).1 rfl rfl
  · exact (C6_absent_plugin_noop sampleOpenState
      { requestType := "pause-teardown", postId := "p3", spyId := "s1"
      , pluginId := "missing", command := "" }).2.1 rfl rfl
  · exact (C6_absent_plugin_noop sampleOpenState
      { requestType := "pause-command", postId := "p2", spyId := "s1"
      , pluginId := "missing", command := "pause" }).2.2.2 "missing"

/-- C7: when a pause-command request resolves to a registered pause plugin,
the inspect command always yields the Not implemented. error and leaves the
whole session state — the deck included — unchanged, whatever the run state
of the deck; any other unrecognized command yields the Unexpected command.
error, also without any state change. -/
theorem C7_inspect_not_implemented (s : DevToolsState) (r : Request)
    (record : PluginRecord) (d : Deck)
    (hr : r.requestType = "pause-command")
    (hmg : mapGet s.plugins_ r.pluginId = some record)
    (_hp : record.plugin = Plugin.pause d) :
    (r.command = "inspect" →
      handleRequest r s = some (s, { request := r, error := some "Not implemented." })) ∧
    (r.command ≠ "clear" → r.command ≠ "pause" → r.command ≠ "resume" →
      r.command ≠ "skip" → r.command ≠ "step" → r.command ≠ "inspect" →
      handleRequest r s = some (s, { request := r, error := some "Unexpected command." })) := by
  constructor
  · intro hcmd
    simp only [handleRequest]
    rw [if_neg (by simp [hr]), if_neg (by simp [hr]), if_neg (by simp [hr]), if_pos hr, hmg]
    dsimp only
    rw [if_neg (by simp [hcmd]), if_neg (by simp [hcmd]), if_neg (by simp [hcmd]),
        if_neg (by simp [hcmd]), if_neg (by simp [hcmd]), if_pos hcmd]
  · intro hc1 hc2 hc3 hc4 hc5 hc6
    simp only [handleRequest]
    rw [if_neg (by simp [hr]), if_neg (by simp [hr]), if_neg (by simp [hr]), if_pos hr, hmg]
    dsimp only
    rw [if_neg hc1, if_neg hc2, if_neg hc3, if_neg hc4, if_neg hc5, if_neg hc6]

/-- A session whose plugin map holds one registered pause plugin. -/
def samplePausedState : DevToolsState :=
  { sampleOpenState with
      plugins_ := [("pid1", { plugin := Plugin.pause Deck.initial, pluginId := "pid1", spyId := "s1" })] }

/-- C7 witness: inspect and an unknown command on the registered sample
pause plugin. -/
theorem C7_inspect_not_implemented_witness :
    handleRequest { requestType := "pause-command", postId := "p4", spyId := "s1"
                  , pluginId := "pid1", command := "inspect" } samplePausedState =
      some (samplePausedState,
        { request := { requestType := "pause-command", postId := "p4", spyId := "s1"
                     , pluginId := "pid1", command := "inspect" }
        , error := some "Not implemented." }) ∧
    handleRequest { requestType := "pause-command", postId := "p4", spyId := "s1"
                  , pluginId := "pid1", command := "bogus" } samplePausedState =
      some (samplePausedState,
        { request := { requestType := "pause-command", postId := "p4", spyId := "s1"
                     , pluginId := "pid1", command := "bogus" }
        , error := some "Unexpected command." }) := by
  constructor
  · exact (C7_inspect_not_implemented samplePausedState
      { requestType := "pause-command", postId := "p4", spyId := "s1"
      , pluginId := "pid1", command := "inspect" }
      { plugin := Plugin.pause Deck.initial, pluginId := "pid1", spyId := "s1" }
      Deck.initial rfl (by decide) rfl).1 rfl
  · exact (C7_inspect_not_implemented samplePausedState
      { requestType := "pause-command", postId := "p4", spyId := "s1"
      , pluginId := "pid1", command := "bogus" }
      { plugin := Plugin.pause Deck.initial, pluginId := "pid1", spyId := "s1" }
      Deck.initial rfl (by decide) rfl).2
      (by decide) (by decide) (by decide) (by decide) (by decide) (by decide)

/-- C8: teardown disarms the batch timer and forgets the connection, and
from the torn-down state no event sequence — timer expiries after
BATCH_MILLISECONDS included — ever posts anything on the connection, so the
pending queue contents are never delivered. -/
theorem C8_teardown_silences (B : Nat) (evs : List Event) (s s' : DevToolsState) (ps : List Post)
    (h : run B evs (teardown s) = some (s', ps)) :
    ps = [] ∧ (teardown s).batchTimerArmed_ = false ∧ (teardown s).connection_ = false := by
  obtain ⟨s1, hrun, -⟩ := run_no_connection B evs (teardown s) (teardown_connection s)
  rw [hrun] at h
  obtain ⟨-, hps⟩ := some_post_inj h
  exact ⟨hps.symm, teardown_timer s, teardown_connection s⟩

/-- C8 witness: after tearing down the sample open-window session the timer
event, a deck-stats event and another timer event post nothing. -/
theorem C8_teardown_silences_witness :
    run 0 [Event.timerFire, Event.deckStatsEv "s1" { buffered := 3, resumed := 0, skipped := 0 },
           Event.timerFire] (teardown sampleOpenState) =
      some ({ teardown sampleOpenState with
                batchQueue_ := [Message.deckStats
                  { id := "s1", buffered := 3, resumed := 0, skipped := 0 }]
              , batchTimerArmed_ := true }, []) ∧
    (teardown sampleOpenState).batchTimerArmed_ = false ∧
    (teardown sampleOpenState).connection_ = false := by
  have hrun :
      run 0 [Event.timerFire, Event.deckStatsEv "s1" { buffered := 3, resumed := 0, skipped := 0 },
             Event.timerFire] (teardown sampleOpenState) =
        some ({ teardown sampleOpenState with
                  batchQueue_ := [Message.deckStats
                    { id := "s1", buffered := 3, resumed := 0, skipped := 0 }]
                , batchTimerArmed_ := true }, []) := by
    decide
  have h := C8_teardown_silences 0
    [Event.timerFire, Event.deckStatsEv "s1" { buffered := 3, resumed := 0, skipped := 0 },
     Event.timerFire] sampleOpenState _ _ hrun
  exact ⟨hrun, h.2.1, h.2.2⟩

/-- C9: the overload machinery never touches deck-stats messages: enqueuing
a deck-stats broadcast behaves identically whatever the snapshotHinted_
flag holds (the flag is neither read nor written by batchDeckStats_), and
the overload collapse rebuilds the queue as exactly the non-notification
messages — every queued deck-stats among them — in their original order,
followed by the single snapshot-hint. -/
theorem C9_overload_frame_deck_stats (B : Nat) (p : DeckStatsPayload) (s : DevToolsState)
    (b : Bool) (inp : NotificationInput) :
    (batchDeckStats_ p { s with snapshotHinted_ := b } =
      { batchDeckStats_ p s with snapshotHinted_ := b }) ∧
    ((batchDeckStats_ p s).snapshotHinted_ = s.snapshotHinted_) ∧
    (s.connection_ = true → s.snapshotHinted_ = false → s.batchTimerArmed_ = true →
      B < countNotifications s.batchQueue_ →
      (batchNotification_ B inp s).batchQueue_ =
        s.batchQueue_.filter (fun m => !(m.isNotification)) ++ [Message.snapshotHint]) := by
  refine ⟨?_, batchDeckStats_snapshotHinted p s, ?_⟩
  · by_cases harm : s.batchTimerArmed_ = true
    · rw [batchDeckStats_armed p ({ s with snapshotHinted_ := b }) harm,
          batchDeckStats_armed p s harm]
    · have h0 : s.batchTimerArmed_ = false := by
        simpa using harm
      rw [batchDeckStats_unarmed p ({ s with snapshotHinted_ := b }) h0,
          batchDeckStats_unarmed p s h0]
  · intro hc hh harmed hcount
    rw [batchNotification_collapse B inp s hc hh hcount harmed]

/-- C9 witness: the frame facts at the sample open window holding one
deck-stats and one notification message. -/
theorem C9_overload_frame_deck_stats_witness :
    (batchDeckStats_ sampleStats2 { sampleNotifiedState with snapshotHinted_ := true } =
      { batchDeckStats_ sampleStats2 sampleNotifiedState with snapshotHinted_ := true }) ∧
    (batchNotification_ 0 sampleInput sampleNotifiedState).batchQueue_ =
      sampleNotifiedState.batchQueue_.filter (fun m => !(m.isNotification)) ++
        [Message.snapshotHint] := by
  constructor
  · exact (C9_overload_frame_deck_stats 0 sampleStats2 sampleNotifiedState true sampleInput).1
  · exact (C9_overload_frame_deck_stats 0 sampleStats2 sampleNotifiedState true sampleInput).2.2
      rfl rfl rfl (by decide)

/-- C10: while the snapshotHinted_ flag is set, every lifecycle
notification returns early without enqueuing anything, and across any event
sequence containing no snapshot request the flag stays set and the number
of snapshot-hint broadcasts held in the queue plus those flushed out never
grows — so at most the one hint enqueued when the flag was set exists per
suppression epoch and it is never duplicated. -/
theorem C10_single_hint_per_epoch (B : Nat) :
    (∀ (inp : NotificationInput) (s : DevToolsState),
      s.snapshotHinted_ = true → batchNotification_ B inp s = s) ∧
    (∀ (evs : List Event) (s s' : DevToolsState) (ps : List Post),
      s.snapshotHinted_ = true →
      evs.all (fun e => !(isSnapshotRequest e)) = true →
      run B evs s = some (s', ps) →
      s'.snapshotHinted_ = true ∧
      countHints s'.batchQueue_ + postsHints ps ≤ countHints s.batchQueue_) :=
  ⟨fun inp s hh => batchNotification_hinted B inp s hh,
   fun evs s s' ps hh hns h => run_hinted_bound B evs s s' ps hh hns h⟩

/-- C10 witness: suppression and the hint bound on the sample hinted
session across a lifecycle event, a deck-stats event and a timer expiry. -/
theorem C10_single_hint_per_epoch_witness :
    batchNotification_ 0 sampleInput sampleHintedState = sampleHintedState ∧
    ((foldNotify 0 [sampleInput] sampleHintedState).snapshotHinted_ = true ∧
      countHints (foldNotify 0 [sampleInput] sampleHintedState).batchQueue_ + postsHints [] ≤
        countHints sampleHintedState.batchQueue_) := by
  constructor
  · exact (C10_single_hint_per_epoch 0).1 sampleInput sampleHintedState rfl
  · have h := (C10_single_hint_per_epoch 0).2
      [Event.beforeNextEv sampleRef (some "42") sampleExt] sampleHintedState
      sampleHintedState [] rfl (by decide) (by decide)
    constructor
    · have h1 := (C10_single_hint_per_epoch 0).1 sampleInput sampleHintedState rfl
      show (foldNotify 0 [sampleInput] sampleHintedState).snapshotHinted_ = true
      rw [show foldNotify 0 [sampleInput] sampleHintedState =
          batchNotification_ 0 sampleInput sampleHintedState from rfl, h1]
      exact h.1
    · have h1 := (C10_single_hint_per_epoch 0).1 sampleInput sampleHintedState rfl
      rw [show foldNotify 0 [sampleInput] sampleHintedState =
          batchNotification_ 0 sampleInput sampleHintedState from rfl, h1]
      simpa using h.2
